import Mathlib

/-!
Shallow embedding of the satellite-data-viewer pipeline.

Source files embedded here:
  * scripts/collect_data.py   — acquisition (real service vs mock), HDF5 pixel
    extraction (nearest pixel, 5x5 window statistics), record assembly.
  * scripts/upload_to_mysql.py — JSON extraction, MySQL upsert, CSV backup,
    main control flow.

Modelling conventions:
  * numpy 2D arrays are a flat row-major list plus a (rows, cols) shape, which
    is numpy's own memory model; cell (i, j) lives at flat index i*cols + j.
  * machine floats become ℚ; a data cell that holds not-a-number is `none` in
    `Option ℚ` (the latitude/longitude grids are assumed numeric).
  * np.argmin over the sqrt-distance array is embedded as first-index-of-the-
    minimum over the squared-distance list: sqrt is strictly monotone on
    nonnegatives, so the selected index is unchanged; theorems about the
    selection are stated through Real.sqrt to close the gap.
  * np.std is sqrt of the population variance; the embedding records the
    variance `var` (exact in ℚ), and std = Real.sqrt var in statements.
  * external effects (the gportal service, the random mock raster, MySQL
    connectivity) are environment parameters; the control flow around them is
    translated line by line.
-/

set_option maxRecDepth 8192

namespace SatViewer

/-- Minimum of a list, as numpy takes it over a nonempty array
(`[]` is given the junk value 0; callers guard nonemptiness). -/
def listMin : List ℚ → ℚ
  | [] => 0
  | x :: xs => xs.foldl min x

/-- Maximum of a list (junk 0 on `[]`). -/
def listMax : List ℚ → ℚ
  | [] => 0
  | x :: xs => xs.foldl max x

/-- np.argmin semantics: the index of the first occurrence of the minimum
value, over the flattened (row-major) array. -/
def argminIdx (l : List ℚ) : ℕ :=
  l.findIdx (fun x => decide (x = listMin l))

/-- An HDF5 file as `extract_pixel_value` reads it: the two congruent
coordinate grids under Geometry_data and the named 2D datasets under
Image_data, every grid of shape rows × cols stored row-major.
(The spec's data-model invariant makes all grids in one file congruent.) -/
structure RasterFile where
  rows : ℕ
  cols : ℕ
  latFlat : List ℚ
  lonFlat : List ℚ
  datasets : List (String × List (Option ℚ))

/-- Window statistics as built at collect_data.py lines 293-303; `var` is the
population variance, of which np.std reports the square root. -/
structure WindowStats where
  mean : ℚ
  var : ℚ
  min : ℚ
  max : ℚ
  mean_celsius : Option ℚ
deriving DecidableEq, Repr

/-- The success dictionary returned by `extract_pixel_value`
(collect_data.py lines 307-321).  `pixel_value = none` models a float NaN
pixel; `pixel_value_celsius` is `none` exactly when the Python value is None
(non-LST datasets), and `some none` models a NaN Celsius float. -/
structure ExtractResult where
  dataset : String
  pixel_value : Option ℚ
  row : ℕ
  col : ℕ
  latitude : ℚ
  longitude : ℚ
  window_statistics : Option WindowStats
  pixel_value_celsius : Option (Option ℚ)
deriving DecidableEq, Repr

/-- collect_data.py line 270: elementwise squared distance in degree-space
(the code then takes np.sqrt, which does not change the argmin). -/
def distList (f : RasterFile) (lat lon : ℚ) : List ℚ :=
  List.zipWith (fun la lo => (la - lat) ^ 2 + (lo - lon) ^ 2) f.latFlat f.lonFlat

/-- collect_data.py line 271: flat index of the nearest pixel. -/
def minFlatIdx (f : RasterFile) (lat lon : ℚ) : ℕ :=
  argminIdx (distList f lat lon)

/-- Row of the nearest pixel (np.unravel_index, C order). -/
def pixRow (f : RasterFile) (lat lon : ℚ) : ℕ :=
  minFlatIdx f lat lon / f.cols

/-- Column of the nearest pixel (np.unravel_index, C order). -/
def pixCol (f : RasterFile) (lat lon : ℚ) : ℕ :=
  minFlatIdx f lat lon % f.cols

/-- collect_data.py lines 284-288: clipped bounds of the 5x5 window
(ℕ subtraction truncates at 0, matching max(0, i - 2)). -/
def winBounds (f : RasterFile) (lat lon : ℚ) : ℕ × ℕ × ℕ × ℕ :=
  let i := pixRow f lat lon
  let j := pixCol f lat lon
  (i - 2, min f.rows (i + 3), j - 2, min f.cols (j + 3))

/-- collect_data.py line 290: the clipped window slice
data[i_start:i_end, j_start:j_end], flattened row-major. -/
def windowCells (f : RasterFile) (lat lon : ℚ) (dataFlat : List (Option ℚ)) :
    List (Option ℚ) :=
  let b := winBounds f lat lon
  (List.range' b.1 (b.2.1 - b.1)).flatMap fun a =>
    (List.range' b.2.2.1 (b.2.2.2 - b.2.2.1)).map fun c =>
      dataFlat.getD (a * f.cols + c) none

/-- collect_data.py line 291: the window with not-a-number cells dropped. -/
def cleanWindow (f : RasterFile) (lat lon : ℚ) (dataFlat : List (Option ℚ)) :
    List ℚ :=
  (windowCells f lat lon dataFlat).filterMap id

/-- collect_data.py lines 294-303: statistics of a nonempty filtered window. -/
def mkStats (clean : List ℚ) (datasetName : String) : WindowStats :=
  let m : ℚ := clean.sum / clean.length
  { mean := m
    var := (clean.map fun x => (x - m) ^ 2).sum / clean.length
    min := listMin clean
    max := listMax clean
    mean_celsius := if datasetName = "LST" then some (m - 273.15) else none }

/-- collect_data.py lines 237-325, `extract_pixel_value`.  Missing dataset and
the empty-grid argmin failure are the error paths the code reaches under the
congruent-shape invariant; both are caught and returned as error strings. -/
def extract_pixel_value (f : RasterFile) (lat lon : ℚ) (datasetName : String) :
    Except String ExtractResult :=
  match f.datasets.lookup datasetName with
  | none => .error ("データセット Image_data/" ++ datasetName ++ " が見つかりません")
  | some dataFlat =>
    if (distList f lat lon).length = 0 then
      .error "データ抽出エラー: attempt to get argmin of an empty sequence"
    else
      let i := pixRow f lat lon
      let j := pixCol f lat lon
      let pixelValue := dataFlat.getD (i * f.cols + j) none
      let clean := cleanWindow f lat lon dataFlat
      .ok
        { dataset := datasetName
          pixel_value := pixelValue
          row := i
          col := j
          latitude := f.latFlat.getD (i * f.cols + j) 0
          longitude := f.lonFlat.getD (i * f.cols + j) 0
          window_statistics :=
            if clean.length = 0 then none else some (mkStats clean datasetName)
          pixel_value_celsius :=
            if datasetName = "LST" then
              some (pixelValue.map fun v => v - 273.15)
            else none }

/-- The keys present in the result dictionary assembled at collect_data.py
lines 307-321: `window_statistics` is always a key (value possibly None);
`pixel_value_celsius` is added only when the Python value is not None. -/
def resultKeys (r : ExtractResult) : List String :=
  ["dataset", "pixel_value", "pixel_location", "window_statistics"] ++
    (if r.pixel_value_celsius.isSome then ["pixel_value_celsius"] else [])

/-! ## collect_data.py orchestration -/

/-- Ambient facts of one collect_data.py run: which libraries imported, the
credential environment variables, and what the external mock generator and
the real search/download would hand back per product (each may fail). -/
structure CollectEnv where
  useMock : Bool
  gportalAvailable : Bool
  h5pyNumpyOk : Bool
  username : String
  password : String
  mockFile : String → Option RasterFile
  realFile : String → Option RasterFile
  now : String

/-- collect_data.py lines 68-83: credentials from the environment; either one
empty yields (None, None). -/
def get_gportal_credentials (username password : String) :
    Option (String × String) :=
  if username = "" ∨ password = "" then none else some (username, password)

/-- collect_data.py lines 86-165, `search_and_download_real`: None without the
client library, None on missing credentials, None on an unsupported product
type; otherwise whatever search+download yields (None on zero matches or any
transport exception). -/
def search_and_download_real (env : CollectEnv) (productType : String) :
    Option RasterFile :=
  if ¬env.gportalAvailable then none
  else
    match get_gportal_credentials env.username env.password with
    | none => none
    | some _ =>
      if productType = "LST" ∨ productType = "NDVI" then env.realFile productType
      else none

/-- collect_data.py lines 168-234, `create_mock_hdf5`: None without
h5py/numpy, else the generated file (None on a write exception). -/
def create_mock_hdf5 (env : CollectEnv) (productType : String) :
    Option RasterFile :=
  if ¬env.h5pyNumpyOk then none else env.mockFile productType

/-- The branch condition at collect_data.py line 360: the mock generator is
invoked exactly when mock was requested or the client library is missing. -/
def mockInvoked (env : CollectEnv) : Bool :=
  env.useMock || !env.gportalAvailable

/-- Per-product entry of the observations dictionary. -/
inductive ProductObs where
  | ok (r : ExtractResult)
  | err (msg : String)
deriving DecidableEq, Repr

/-- collect_data.py lines 354-384: one product's acquisition + extraction. -/
def collectProduct (env : CollectEnv) (lat lon : ℚ) (productType : String) :
    ProductObs :=
  let hdf5Path :=
    if mockInvoked env then create_mock_hdf5 env productType
    else search_and_download_real env productType
  match hdf5Path with
  | none => .err "ファイル取得失敗"
  | some f =>
    match extract_pixel_value f lat lon productType with
    | .error e => .err e
    | .ok r => .ok r

/-- The record assembled by `collect_satellite_data`
(collect_data.py lines 341-351). -/
structure ObservationRecord where
  latitude : ℚ
  longitude : ℚ
  name : String
  observation_date : String
  processing_time : String
  data_source : String
  lst : ProductObs
  ndvi : ProductObs
deriving DecidableEq, Repr

/-- collect_data.py lines 328-386, `collect_satellite_data`. -/
def collect_satellite_data (env : CollectEnv) (lat lon : ℚ)
    (targetDate : String) : ObservationRecord :=
  { latitude := lat
    longitude := lon
    name := "Observation Point"
    observation_date := targetDate
    processing_time := env.now
    data_source := if env.useMock then "mock" else "gportal"
    lst := collectProduct env lat lon "LST"
    ndvi := collectProduct env lat lon "NDVI" }

/-! ## upload_to_mysql.py -/

/-- Rounding of Python's round(x, ndigits) on exact decimals: nearest,
ties to even. -/
def roundHalfEven (x : ℚ) : ℤ :=
  let n := ⌊x⌋
  let frac := x - n
  if frac < 1 / 2 then n
  else if 1 / 2 < frac then n + 1
  else if n % 2 = 0 then n else n + 1

/-- round(x, d) to d decimal places. -/
def roundTo (x : ℚ) (d : ℕ) : ℚ :=
  (roundHalfEven (x * 10 ^ d) : ℚ) / 10 ^ d

/-- One per-product payload of the input JSON as extract_observation_data
probes it: an optional error key and the optional value keys. -/
structure ProductPayload where
  error : Option String
  pixel_value : Option ℚ
  pixel_value_celsius : Option ℚ
deriving DecidableEq, Repr

/-- The observations dictionary of the input JSON. -/
structure ObsMap where
  lst : Option ProductPayload
  ndvi : Option ProductPayload
deriving DecidableEq, Repr

/-- The input JSON document (collect_data.py output as re-read). -/
structure JsonDoc where
  observation_date : Option String
  observations : Option ObsMap
deriving DecidableEq, Repr

/-- The dictionary built by `extract_observation_data`. -/
structure Observation where
  observation_date : Option String
  lst : Option ℚ
  ndvi : Option ℚ
deriving DecidableEq, Repr

/-- upload_to_mysql.py lines 137-165, `extract_observation_data`: lst and ndvi
stay None unless the per-product payload has no error key and carries the
expected value key; then they are rounded to 2 resp. 3 decimals. -/
def extract_observation_data (jsonData : JsonDoc) : Observation :=
  { observation_date := jsonData.observation_date
    lst :=
      match jsonData.observations with
      | none => none
      | some m =>
        match m.lst with
        | none => none
        | some p =>
          if p.error = none then
            match p.pixel_value_celsius with
            | some c => some (roundTo c 2)
            | none => none
          else none
    ndvi :=
      match jsonData.observations with
      | none => none
      | some m =>
        match m.ndvi with
        | none => none
        | some p =>
          if p.error = none then
            match p.pixel_value with
            | some v => some (roundTo v 3)
            | none => none
          else none }

/-- A row of the observations table. -/
structure ObsRow where
  location_id : ℕ
  observation_date : Option String
  lst : Option ℚ
  ndvi : Option ℚ
deriving DecidableEq, Repr

/-- Bool test for the UNIQUE (location_id, observation_date) key. -/
def keyMatch (locationId : ℕ) (date : Option String) (s : ObsRow) : Bool :=
  decide (s.location_id = locationId ∧ s.observation_date = date)

/-- upload_to_mysql.py lines 168-218, `insert_observation`: the statement
INSERT ... ON DUPLICATE KEY UPDATE lst = VALUES(lst), ndvi = VALUES(ndvi)
against the UNIQUE (location_id, observation_date) key — update the matching
row in place if the key is present, else append the new row. -/
def insert_observation (store : List ObsRow) (locationId : ℕ)
    (observation : Observation) : List ObsRow :=
  if store.any (keyMatch locationId observation.observation_date) then
    store.map fun s =>
      if keyMatch locationId observation.observation_date s then
        { s with lst := observation.lst, ndvi := observation.ndvi }
      else s
  else
    store ++ [{ location_id := locationId
                observation_date := observation.observation_date
                lst := observation.lst
                ndvi := observation.ndvi }]

/-- One row of the CSV backup file. -/
structure CsvRow where
  location_id : ℕ
  observation_date : Option String
  lst : Option ℚ
  ndvi : Option ℚ
  error : String
deriving DecidableEq, Repr

/-- Contents of one backup CSV file: whether a header line was written, and
the data rows in order. -/
structure CsvFileState where
  header : Bool
  rows : List CsvRow
deriving DecidableEq, Repr

/-- upload_to_mysql.py lines 221-254, `save_to_csv_backup`: append mode;
header only when the file did not exist; error column is the message or
the empty string. -/
def save_to_csv_backup (existing : Option CsvFileState)
    (observation : Observation) (locationId : ℕ)
    (errorMessage : Option String) : CsvFileState :=
  let row : CsvRow :=
    { location_id := locationId
      observation_date := observation.observation_date
      lst := observation.lst
      ndvi := observation.ndvi
      error := errorMessage.getD "" }
  match existing with
  | none => { header := true, rows := [row] }
  | some f => { f with rows := f.rows ++ [row] }

/-- Ambient facts of one upload_to_mysql.py run.  `inputDoc = none` is a
missing input file; `connectOk` is whether pymysql.connect succeeds;
`locations` the ids present in the locations table; `insertOk` whether the
upsert statement executes without a pymysql error; `backupExisting` the
pre-existing contents of this run's timestamped backup file (none: fresh). -/
structure UploadEnv where
  inputDoc : Option JsonDoc
  backupOnly : Bool
  pymysqlAvailable : Bool
  connectOk : Bool
  locations : List ℕ
  store : List ObsRow
  insertOk : Bool
  backupExisting : Option CsvFileState

/-- Outcome of one upload_to_mysql.py run: process exit code, the
observations table afterwards, the backup file written this run (if any),
and whether a store connection was ever attempted. -/
structure UploadOutcome where
  exitCode : ℕ
  store : List ObsRow
  backup : Option CsvFileState
  connectionAttempted : Bool
deriving Repr

/-- upload_to_mysql.py lines 286-374, `main`, for one run at a given
--location-id: load JSON (missing file is fatal before any write), extract,
branch on --backup-only, then pymysql availability, connection, location
existence check, and the upsert; every store-side failure rolls back, writes
the CSV backup with the exception text, and exits 1. -/
def uploadMain (env : UploadEnv) (locationId : ℕ) : UploadOutcome :=
  match env.inputDoc with
  | none =>
    { exitCode := 1, store := env.store, backup := none
      connectionAttempted := false }
  | some doc =>
    let observation := extract_observation_data doc
    if env.backupOnly then
      { exitCode := 0, store := env.store
        backup := some (save_to_csv_backup env.backupExisting observation
          locationId none)
        connectionAttempted := false }
    else if ¬env.pymysqlAvailable then
      { exitCode := 1, store := env.store
        backup := some (save_to_csv_backup env.backupExisting observation
          locationId (some "pymysql未インストール"))
        connectionAttempted := false }
    else if ¬env.connectOk then
      { exitCode := 1, store := env.store
        backup := some (save_to_csv_backup env.backupExisting observation
          locationId (some "MySQL接続エラー"))
        connectionAttempted := true }
    else if ¬(env.locations.contains locationId) then
      { exitCode := 1, store := env.store
        backup := some (save_to_csv_backup env.backupExisting observation
          locationId
          (some ("観測地点ID=" ++ toString locationId ++ " が存在しません")))
        connectionAttempted := true }
    else if env.insertOk then
      { exitCode := 0
        store := insert_observation env.store locationId observation
        backup := none
        connectionAttempted := true }
    else
      { exitCode := 1, store := env.store
        backup := some (save_to_csv_backup env.backupExisting observation
          locationId (some "データ挿入に失敗しました"))
        connectionAttempted := true }

/-- Squared degree-space distance between the query point and the grid cell
at row a, column b (the quantity whose square root collect_data.py line 270
computes for every cell). -/
def dist2cell (f : RasterFile) (lat lon : ℚ) (a b : ℕ) : ℚ :=
  (f.latFlat.getD (a * f.cols + b) 0 - lat) ^ 2 +
    (f.lonFlat.getD (a * f.cols + b) 0 - lon) ^ 2

/-- Whether a successful extraction reports window statistics. -/
def statsReported (f : RasterFile) (lat lon : ℚ) (datasetName : String) :
    Bool :=
  match extract_pixel_value f lat lon datasetName with
  | .ok r => r.window_statistics.isSome
  | .error _ => false

/-- The UNIQUE (location_id, observation_date) constraint of the observations
table: no key occurs on more than one row. -/
def wfStore (store : List ObsRow) : Prop :=
  ∀ locId date, store.countP (keyMatch locId date) ≤ 1

/-! ## Concrete inputs used by witnesses and counterexamples -/

/-- NDVI data grid of the concrete raster below (cell (1,1) not-a-number). -/
def dataN : List (Option ℚ) := [some 1, some 2, some 3, some 4, none, some 6]

/-- LST data grid of the concrete raster below. -/
def dataL : List (Option ℚ) :=
  [some 300, some 301, some 302, some 303, some 304, some 305]

/-- A concrete 2 × 3 raster exercising the extractor: latitudes 0,1 by rows,
longitudes 0,1,2 by columns. -/
def gW : RasterFile :=
  { rows := 2, cols := 3
    latFlat := [0, 0, 0, 1, 1, 1]
    lonFlat := [0, 1, 2, 0, 1, 2]
    datasets := [("NDVI", dataN), ("LST", dataL)] }

/-- Fallback record (only used as the default of Option.getD below). -/
def rDefault : ExtractResult :=
  { dataset := "", pixel_value := none, row := 0, col := 0
    latitude := 0, longitude := 0, window_statistics := none
    pixel_value_celsius := none }

/-- The extractor's result on `gW`, NDVI, query point (1, 1). -/
def rW : ExtractResult :=
  ((extract_pixel_value gW 1 1 "NDVI").toOption).getD rDefault

/-- The extractor's result on `gW`, LST, query point (1, 1). -/
def rL : ExtractResult :=
  ((extract_pixel_value gW 1 1 "LST").toOption).getD rDefault

/-- The window statistics reported in `rL`. -/
def sL : WindowStats :=
  rL.window_statistics.getD { mean := 0, var := 0, min := 0, max := 0
                              mean_celsius := none }

/-- A 1 × 1 raster whose single NDVI cell is not-a-number: its whole 5x5
window is not-a-number. -/
def gNaN : RasterFile :=
  { rows := 1, cols := 1, latFlat := [0], lonFlat := [0]
    datasets := [("NDVI", [none])] }

/-- The extractor's result on `gNaN`. -/
def rNaN : ExtractResult :=
  ((extract_pixel_value gNaN 0 0 "NDVI").toOption).getD rDefault

/-- Environment of a collect run where mock was NOT requested but the client
library is missing, so mock data is silently substituted (and the generator
would succeed). -/
def envSub : CollectEnv :=
  { useMock := false
    gportalAvailable := false
    h5pyNumpyOk := true
    username := "user"
    password := "pass"
    mockFile := fun _ => some gW
    realFile := fun _ => none
    now := "2026-01-08T12:00:00" }

/-- Environment of a collect run where the client library is importable but
the credentials are missing (empty username), mock not requested, and the
mock generator would have succeeded had it been invoked. -/
def envCreds : CollectEnv :=
  { useMock := false
    gportalAvailable := true
    h5pyNumpyOk := true
    username := ""
    password := "pass"
    mockFile := fun _ => some gW
    realFile := fun _ => some gW
    now := "2026-01-08T12:00:00" }

/-- A concrete lst payload of the error kind. -/
def plW : ProductPayload :=
  { error := some "ファイル取得失敗", pixel_value := none
    pixel_value_celsius := none }

/-- A concrete successful ndvi payload carrying pixel_value 0.7654. -/
def pnW : ProductPayload :=
  { error := none, pixel_value := some (7654 / 10000)
    pixel_value_celsius := none }

/-- The observations dictionary made of the two payloads above. -/
def mW : ObsMap := { lst := some plW, ndvi := some pnW }

/-- A concrete input JSON: the lst payload is an `{error}` payload, the ndvi
payload a success. -/
def docW : JsonDoc :=
  { observation_date := some "2026-01-08", observations := some mW }

/-- A concrete upload environment: fresh backup file, working store with
location 1 known, observation store empty. -/
def envUp : UploadEnv :=
  { inputDoc := some docW
    backupOnly := false
    pymysqlAvailable := true
    connectOk := true
    locations := [1]
    store := []
    insertOk := true
    backupExisting := none }

/-- Equality of Except values is decidable when it is on both sides. -/
instance {ε α : Type} [DecidableEq ε] [DecidableEq α] :
    DecidableEq (Except ε α) := fun x y =>
  match x, y with
  | .ok a, .ok b =>
    if h : a = b then isTrue (by rw [h])
    else isFalse (fun hc => h (Except.ok.inj hc))
  | .error a, .error b =>
    if h : a = b then isTrue (by rw [h])
    else isFalse (fun hc => h (Except.error.inj hc))
  | .ok _, .error _ => isFalse (fun hc => Except.noConfusion hc)
  | .error _, .ok _ => isFalse (fun hc => Except.noConfusion hc)

/-! ## Helper lemmas: list minimum / maximum / argmin -/

theorem foldl_min_le_init (xs : List ℚ) (a : ℚ) : xs.foldl min a ≤ a := by
  induction xs generalizing a with
  | nil => exact le_refl a
  | cons x xs ih =>
    exact le_trans (ih (min a x)) (min_le_left a x)

theorem foldl_min_le_mem (xs : List ℚ) (a x : ℚ) (hx : x ∈ xs) :
    xs.foldl min a ≤ x := by
  induction xs generalizing a with
  | nil => cases hx
  | cons y ys ih =>
    rcases List.mem_cons.mp hx with h | h
    · subst h
      exact le_trans (foldl_min_le_init ys (min a x)) (min_le_right a x)
    · exact ih (min a y) h

theorem foldl_min_eq_or_mem (xs : List ℚ) (a : ℚ) :
    xs.foldl min a = a ∨ xs.foldl min a ∈ xs := by
  induction xs generalizing a with
  | nil => exact Or.inl rfl
  | cons x xs ih =>
    rcases ih (min a x) with h | h
    · rcases min_cases a x with ⟨hm, _⟩ | ⟨hm, _⟩
      · exact Or.inl (by rw [List.foldl_cons, h, hm])
      · exact Or.inr (by rw [List.foldl_cons, h, hm]; exact List.mem_cons_self x xs)
    · exact Or.inr (List.mem_cons_of_mem x h)

theorem init_le_foldl_max (xs : List ℚ) (a : ℚ) : a ≤ xs.foldl max a := by
  induction xs generalizing a with
  | nil => exact le_refl a
  | cons x xs ih =>
    exact le_trans (le_max_left a x) (ih (max a x))

theorem mem_le_foldl_max (xs : List ℚ) (a x : ℚ) (hx : x ∈ xs) :
    x ≤ xs.foldl max a := by
  induction xs generalizing a with
  | nil => cases hx
  | cons y ys ih =>
    rcases List.mem_cons.mp hx with h | h
    · subst h
      exact le_trans (le_max_right a x) (init_le_foldl_max ys (max a x))
    · exact ih (max a y) h

theorem foldl_max_eq_or_mem (xs : List ℚ) (a : ℚ) :
    xs.foldl max a = a ∨ xs.foldl max a ∈ xs := by
  induction xs generalizing a with
  | nil => exact Or.inl rfl
  | cons x xs ih =>
    rcases ih (max a x) with h | h
    · rcases max_cases a x with ⟨hm, _⟩ | ⟨hm, _⟩
      · exact Or.inl (by rw [List.foldl_cons, h, hm])
      · exact Or.inr (by rw [List.foldl_cons, h, hm]; exact List.mem_cons_self x xs)
    · exact Or.inr (List.mem_cons_of_mem x h)

theorem listMin_le_mem (l : List ℚ) (x : ℚ) (hx : x ∈ l) : listMin l ≤ x := by
  cases l with
  | nil => cases hx
  | cons y ys =>
    rcases List.mem_cons.mp hx with h | h
    · subst h; exact foldl_min_le_init ys x
    · exact foldl_min_le_mem ys y x h

theorem mem_le_listMax (l : List ℚ) (x : ℚ) (hx : x ∈ l) : x ≤ listMax l := by
  cases l with
  | nil => cases hx
  | cons y ys =>
    rcases List.mem_cons.mp hx with h | h
    · subst h; exact init_le_foldl_max ys x
    · exact mem_le_foldl_max ys y x h

theorem listMin_mem (l : List ℚ) (hl : l ≠ []) : listMin l ∈ l := by
  cases l with
  | nil => exact absurd rfl hl
  | cons y ys =>
    rcases foldl_min_eq_or_mem ys y with h | h
    · rw [listMin, h]; exact List.mem_cons_self y ys
    · exact List.mem_cons_of_mem y h

theorem listMax_mem (l : List ℚ) (hl : l ≠ []) : listMax l ∈ l := by
  cases l with
  | nil => exact absurd rfl hl
  | cons y ys =>
    rcases foldl_max_eq_or_mem ys y with h | h
    · rw [listMax, h]; exact List.mem_cons_self y ys
    · exact List.mem_cons_of_mem y h

theorem argminIdx_lt_length (l : List ℚ) (hl : l ≠ []) :
    argminIdx l < l.length :=
  List.findIdx_lt_length_of_exists
    ⟨listMin l, listMin_mem l hl, by simp⟩

theorem getElem_argminIdx (l : List ℚ)
    (h : argminIdx l < l.length) :
    l[argminIdx l] = listMin l := by
  have := @List.findIdx_getElem _ (fun x => decide (x = listMin l)) l h
  exact of_decide_eq_true this

theorem getElem_argminIdx_le (l : List ℚ)
    (k : ℕ) (hk : k < l.length) (h : argminIdx l < l.length) :
    l[argminIdx l] ≤ l[k] := by
  rw [getElem_argminIdx l h]
  exact listMin_le_mem l l[k] (l.getElem_mem hk)

theorem getElem_argminIdx_lt_of_lt (l : List ℚ)
    (k : ℕ) (hk : k < argminIdx l) (h : argminIdx l < l.length) :
    l[argminIdx l] < l[k] := by
  have hkl : k < l.length := lt_trans hk h
  have hne : ¬(l[k] = listMin l) := by
    have := @List.not_of_lt_findIdx _ (fun x => decide (x = listMin l)) l k hk
    simpa using this
  have hle : listMin l ≤ l[k] := listMin_le_mem l l[k] (l.getElem_mem hkl)
  rw [getElem_argminIdx l h]
  exact lt_of_le_of_ne hle (fun he => hne he.symm)

/-! ## Helper lemmas: the extraction pipeline -/

theorem distList_length (f : RasterFile) (lat lon : ℚ)
    (hlat : f.latFlat.length = f.rows * f.cols)
    (hlon : f.lonFlat.length = f.rows * f.cols) :
    (distList f lat lon).length = f.rows * f.cols := by
  simp [distList, List.length_zipWith, hlat, hlon]

theorem distList_getElem (f : RasterFile) (lat lon : ℚ) (k : ℕ)
    (hk : k < (distList f lat lon).length) :
    (distList f lat lon)[k] =
      (f.latFlat.get ⟨k, by
          simp only [distList, List.length_zipWith] at hk
          exact lt_of_lt_of_le hk (min_le_left _ _)⟩ - lat) ^ 2 +
      (f.lonFlat.get ⟨k, by
          simp only [distList, List.length_zipWith] at hk
          exact lt_of_lt_of_le hk (min_le_right _ _)⟩ - lon) ^ 2 := by
  simp only [distList, List.getElem_zipWith, List.get_eq_getElem]

theorem flatIdx_lt (rows cols a b : ℕ) (ha : a < rows) (hb : b < cols) :
    a * cols + b < rows * cols := by
  calc a * cols + b < a * cols + cols := by omega
    _ = (a + 1) * cols := by ring
    _ ≤ rows * cols := Nat.mul_le_mul_right cols ha

theorem distList_getElem_eq_dist2cell (f : RasterFile) (lat lon : ℚ)
    (hlat : f.latFlat.length = f.rows * f.cols)
    (hlon : f.lonFlat.length = f.rows * f.cols)
    (a b : ℕ) (ha : a < f.rows) (hb : b < f.cols)
    (hk : a * f.cols + b < (distList f lat lon).length) :
    (distList f lat lon)[a * f.cols + b] = dist2cell f lat lon a b := by
  rw [distList_getElem f lat lon _ hk, dist2cell]
  have hka : a * f.cols + b < f.latFlat.length := by
    rw [hlat]; exact flatIdx_lt f.rows f.cols a b ha hb
  have hkb : a * f.cols + b < f.lonFlat.length := by
    rw [hlon]; exact flatIdx_lt f.rows f.cols a b ha hb
  rw [List.getD_eq_getElem f.latFlat 0 hka, List.getD_eq_getElem f.lonFlat 0 hkb]
  rfl

theorem dist2cell_nonneg (f : RasterFile) (lat lon : ℚ) (a b : ℕ) :
    0 ≤ dist2cell f lat lon a b := by
  rw [dist2cell]; positivity

theorem pixRowCol_flat (f : RasterFile) (lat lon : ℚ) :
    pixRow f lat lon * f.cols + pixCol f lat lon = minFlatIdx f lat lon := by
  rw [pixRow, pixCol, Nat.mul_comm]
  exact Nat.div_add_mod _ _

/-- Inversion of a successful `extract_pixel_value`: the looked-up dataset
exists, the grid is nonempty, and the result record is the one assembled from
the nearest pixel and its window. -/
theorem extract_ok_inv (f : RasterFile) (lat lon : ℚ) (ds : String)
    (r : ExtractResult) (hex : extract_pixel_value f lat lon ds = .ok r) :
    ∃ dataFlat, f.datasets.lookup ds = some dataFlat ∧
      (distList f lat lon).length ≠ 0 ∧
      r = { dataset := ds
            pixel_value :=
              dataFlat.getD (pixRow f lat lon * f.cols + pixCol f lat lon) none
            row := pixRow f lat lon
            col := pixCol f lat lon
            latitude :=
              f.latFlat.getD (pixRow f lat lon * f.cols + pixCol f lat lon) 0
            longitude :=
              f.lonFlat.getD (pixRow f lat lon * f.cols + pixCol f lat lon) 0
            window_statistics :=
              if (cleanWindow f lat lon dataFlat).length = 0 then none
              else some (mkStats (cleanWindow f lat lon dataFlat) ds)
            pixel_value_celsius :=
              if ds = "LST" then
                some ((dataFlat.getD
                  (pixRow f lat lon * f.cols + pixCol f lat lon) none).map
                    fun v => v - 273.15)
              else none } := by
  unfold extract_pixel_value at hex
  split at hex
  · exact absurd hex (by simp)
  · rename_i dataFlat hld
    split at hex
    · exact absurd hex (by simp)
    · rename_i hz
      refine ⟨dataFlat, hld, hz, ?_⟩
      simpa using hex.symm

/-! ## Helper lemmas: window statistics -/

theorem listMin_le_mean (l : List ℚ) (hl : l ≠ []) :
    listMin l ≤ l.sum / l.length := by
  have hpos : (0 : ℚ) < l.length := by
    exact_mod_cast List.length_pos.mpr hl
  rw [le_div_iff₀ hpos]
  have h := List.card_nsmul_le_sum l (listMin l)
    (fun x hx => listMin_le_mem l x hx)
  calc listMin l * l.length = l.length • listMin l := by
        rw [nsmul_eq_mul]; ring
    _ ≤ l.sum := h

theorem mean_le_listMax (l : List ℚ) (hl : l ≠ []) :
    l.sum / l.length ≤ listMax l := by
  have hpos : (0 : ℚ) < l.length := by
    exact_mod_cast List.length_pos.mpr hl
  rw [div_le_iff₀ hpos]
  have h := List.sum_le_card_nsmul l (listMax l)
    (fun x hx => mem_le_listMax l x hx)
  calc l.sum ≤ l.length • listMax l := h
    _ = listMax l * l.length := by rw [nsmul_eq_mul]; ring

theorem sq_dev_mean_nonneg (l : List ℚ) (m : ℚ) :
    0 ≤ (l.map fun x => (x - m) ^ 2).sum / (l.length : ℚ) := by
  apply div_nonneg
  · apply List.sum_nonneg
    intro x hx
    rcases List.mem_map.mp hx with ⟨y, _, rfl⟩
    positivity
  · positivity

theorem winBounds_row_le_rows (f : RasterFile) (lat lon : ℚ) :
    (winBounds f lat lon).2.1 ≤ f.rows := by
  simp [winBounds]

theorem winBounds_col_le_cols (f : RasterFile) (lat lon : ℚ) :
    (winBounds f lat lon).2.2.2 ≤ f.cols := by
  simp [winBounds]

theorem winBounds_row_span_le (f : RasterFile) (lat lon : ℚ) :
    (winBounds f lat lon).2.1 - (winBounds f lat lon).1 ≤ 5 := by
  simp only [winBounds]
  omega

theorem winBounds_col_span_le (f : RasterFile) (lat lon : ℚ) :
    (winBounds f lat lon).2.2.2 - (winBounds f lat lon).2.2.1 ≤ 5 := by
  simp only [winBounds]
  omega

theorem self_mem_windowCells (f : RasterFile) (lat lon : ℚ)
    (dataFlat : List (Option ℚ))
    (hrow : pixRow f lat lon < f.rows) (hcol : pixCol f lat lon < f.cols) :
    dataFlat.getD (pixRow f lat lon * f.cols + pixCol f lat lon) none ∈
      windowCells f lat lon dataFlat := by
  simp only [windowCells]
  apply List.mem_flatMap.mpr
  refine ⟨pixRow f lat lon, ?_, ?_⟩
  · apply List.mem_range'_1.mpr
    simp only [winBounds]
    omega
  · apply List.mem_map.mpr
    refine ⟨pixCol f lat lon, ?_, rfl⟩
    apply List.mem_range'_1.mpr
    simp only [winBounds]
    omega

theorem cleanWindow_ne_nil (f : RasterFile) (lat lon : ℚ)
    (dataFlat : List (Option ℚ)) (v : ℚ)
    (hrow : pixRow f lat lon < f.rows) (hcol : pixCol f lat lon < f.cols)
    (hv : dataFlat.getD (pixRow f lat lon * f.cols + pixCol f lat lon) none =
      some v) :
    cleanWindow f lat lon dataFlat ≠ [] := by
  have hmem : some v ∈ windowCells f lat lon dataFlat := by
    rw [← hv]; exact self_mem_windowCells f lat lon dataFlat hrow hcol
  have hcl : v ∈ cleanWindow f lat lon dataFlat :=
    List.mem_filterMap.mpr ⟨some v, hmem, rfl⟩
  intro hnil
  rw [hnil] at hcl
  cases hcl

/-! ## Helper lemmas: grid index arithmetic under a successful extraction -/

theorem cols_pos_of_nonempty (f : RasterFile) (lat lon : ℚ)
    (hlat : f.latFlat.length = f.rows * f.cols)
    (hlon : f.lonFlat.length = f.rows * f.cols)
    (hz : (distList f lat lon).length ≠ 0) :
    0 < f.cols := by
  rw [distList_length f lat lon hlat hlon] at hz
  rcases Nat.eq_zero_or_pos f.cols with h | h
  · exact absurd (by rw [h, Nat.mul_zero]) hz
  · exact h

theorem minFlatIdx_lt (f : RasterFile) (lat lon : ℚ)
    (hz : (distList f lat lon).length ≠ 0) :
    minFlatIdx f lat lon < (distList f lat lon).length := by
  apply argminIdx_lt_length
  intro h
  exact hz (by rw [h]; rfl)

theorem pixRow_lt_rows (f : RasterFile) (lat lon : ℚ)
    (hlat : f.latFlat.length = f.rows * f.cols)
    (hlon : f.lonFlat.length = f.rows * f.cols)
    (hz : (distList f lat lon).length ≠ 0) :
    pixRow f lat lon < f.rows := by
  have hcols := cols_pos_of_nonempty f lat lon hlat hlon hz
  have hm := minFlatIdx_lt f lat lon hz
  rw [distList_length f lat lon hlat hlon] at hm
  rw [pixRow]
  exact (Nat.div_lt_iff_lt_mul hcols).mpr (by rw [Nat.mul_comm] at hm ⊢; exact hm)

theorem pixCol_lt_cols (f : RasterFile) (lat lon : ℚ)
    (hlat : f.latFlat.length = f.rows * f.cols)
    (hlon : f.lonFlat.length = f.rows * f.cols)
    (hz : (distList f lat lon).length ≠ 0) :
    pixCol f lat lon < f.cols := by
  have hcols := cols_pos_of_nonempty f lat lon hlat hlon hz
  rw [pixCol]
  exact Nat.mod_lt _ hcols

/-! ## Claim theorems -/

/-- C6 (confirmed): for every raster file and query coordinate, a successful
extraction selects the grid cell minimizing the planar Euclidean degree-space
distance between the query point and the cell's (latitude, longitude); among
cells attaining the minimum the first in row-major order is selected (every
row-major-earlier cell is at strictly greater distance). -/
theorem extraction_nearest_pixel (f : RasterFile) (lat lon : ℚ) (ds : String)
    (r : ExtractResult) (a b : ℕ)
    (hlat : f.latFlat.length = f.rows * f.cols)
    (hlon : f.lonFlat.length = f.rows * f.cols)
    (hex : extract_pixel_value f lat lon ds = .ok r)
    (ha : a < f.rows) (hb : b < f.cols) :
    r.row < f.rows ∧ r.col < f.cols ∧
    Real.sqrt (dist2cell f lat lon r.row r.col) ≤
      Real.sqrt (dist2cell f lat lon a b) ∧
    (a * f.cols + b < minFlatIdx f lat lon →
      Real.sqrt (dist2cell f lat lon r.row r.col) <
        Real.sqrt (dist2cell f lat lon a b)) := by
  obtain ⟨dataFlat, hld, hz, hr⟩ := extract_ok_inv f lat lon ds r hex
  have hlen : (distList f lat lon).length = f.rows * f.cols :=
    distList_length f lat lon hlat hlon
  have hrow : pixRow f lat lon < f.rows := pixRow_lt_rows f lat lon hlat hlon hz
  have hcol : pixCol f lat lon < f.cols := pixCol_lt_cols f lat lon hlat hlon hz
  have hm : minFlatIdx f lat lon < (distList f lat lon).length :=
    minFlatIdx_lt f lat lon hz
  have hne : distList f lat lon ≠ [] := by
    intro h; exact hz (by rw [h]; rfl)
  have hkab : a * f.cols + b < (distList f lat lon).length := by
    rw [hlen]; exact flatIdx_lt f.rows f.cols a b ha hb
  have hdm : (distList f lat lon)[minFlatIdx f lat lon] =
      dist2cell f lat lon (pixRow f lat lon) (pixCol f lat lon) := by
    have := distList_getElem_eq_dist2cell f lat lon hlat hlon
      (pixRow f lat lon) (pixCol f lat lon) hrow hcol
      (by rw [pixRowCol_flat]; exact hm)
    rw [← this]
    congr 1
    exact (pixRowCol_flat f lat lon).symm
  have hdab : (distList f lat lon)[a * f.cols + b] =
      dist2cell f lat lon a b :=
    distList_getElem_eq_dist2cell f lat lon hlat hlon a b ha hb hkab
  have hrrow : r.row = pixRow f lat lon := by rw [hr]
  have hrcol : r.col = pixCol f lat lon := by rw [hr]
  refine ⟨hrrow ▸ hrow, hrcol ▸ hcol, ?_, ?_⟩
  · have hle : (distList f lat lon)[minFlatIdx f lat lon] ≤
        (distList f lat lon)[a * f.cols + b] :=
      getElem_argminIdx_le (distList f lat lon) (a * f.cols + b) hkab hm
    rw [hdm, hdab] at hle
    rw [hrrow, hrcol]
    exact Real.sqrt_le_sqrt (by exact_mod_cast hle)
  · intro hfirst
    have hlt : (distList f lat lon)[minFlatIdx f lat lon] <
        (distList f lat lon)[a * f.cols + b] :=
      getElem_argminIdx_lt_of_lt (distList f lat lon) (a * f.cols + b)
        hfirst hm
    rw [hdm, hdab] at hlt
    rw [hrrow, hrcol]
    apply Real.sqrt_lt_sqrt
    · exact_mod_cast dist2cell_nonneg f lat lon (pixRow f lat lon)
        (pixCol f lat lon)
    · exact_mod_cast hlt

/-- C6 witness: on the concrete 2 × 3 grid `gW` with query point (1,1), the
extraction selects a valid cell, its distance is at most the distance of cell
(0,1), and any row-major-earlier cell is strictly farther. -/
theorem extraction_nearest_pixel_witness :
    gW.latFlat.length = gW.rows * gW.cols ∧
    gW.lonFlat.length = gW.rows * gW.cols ∧
    extract_pixel_value gW 1 1 "NDVI" = .ok rW ∧
    (rW.row < gW.rows ∧ rW.col < gW.cols ∧
     Real.sqrt (dist2cell gW 1 1 rW.row rW.col) ≤
       Real.sqrt (dist2cell gW 1 1 0 1) ∧
     (0 * gW.cols + 1 < minFlatIdx gW 1 1 →
       Real.sqrt (dist2cell gW 1 1 rW.row rW.col) <
         Real.sqrt (dist2cell gW 1 1 0 1))) :=
  ⟨by decide, by decide, by with_unfolding_all decide,
   extraction_nearest_pixel gW 1 1 "NDVI" rW 0 1 (by decide) (by decide)
     (by with_unfolding_all decide) (by decide) (by decide)⟩

/-- C7 (confirmed): whenever a successful extraction reports window
statistics, they are taken over the clipped (never padded: the bounds stay
inside the array and span at most 5 rows and 5 columns) window with
not-a-number cells excluded — min and max are values of that filtered
window — and they satisfy min ≤ mean ≤ max, variance ≥ 0, and
std = sqrt variance ≥ 0. -/
theorem window_stats_bounds (f : RasterFile) (lat lon : ℚ) (ds : String)
    (r : ExtractResult) (s : WindowStats) (dataFlat : List (Option ℚ))
    (hld : f.datasets.lookup ds = some dataFlat)
    (hex : extract_pixel_value f lat lon ds = .ok r)
    (hs : r.window_statistics = some s) :
    s.min ≤ s.mean ∧ s.mean ≤ s.max ∧ 0 ≤ s.var ∧
    (0 : ℝ) ≤ Real.sqrt s.var ∧
    s.min ∈ cleanWindow f lat lon dataFlat ∧
    s.max ∈ cleanWindow f lat lon dataFlat ∧
    (winBounds f lat lon).2.1 ≤ f.rows ∧
    (winBounds f lat lon).2.2.2 ≤ f.cols ∧
    (winBounds f lat lon).2.1 - (winBounds f lat lon).1 ≤ 5 ∧
    (winBounds f lat lon).2.2.2 - (winBounds f lat lon).2.2.1 ≤ 5 := by
  obtain ⟨dataFlat2, hld2, hz, hr⟩ := extract_ok_inv f lat lon ds r hex
  rw [hld] at hld2
  injection hld2 with hdf
  subst hdf
  have hs2 : (if (cleanWindow f lat lon dataFlat).length = 0 then none
      else some (mkStats (cleanWindow f lat lon dataFlat) ds)) = some s := by
    rw [hr] at hs; exact hs
  by_cases h0 : (cleanWindow f lat lon dataFlat).length = 0
  · rw [if_pos h0] at hs2; cases hs2
  · rw [if_neg h0] at hs2
    injection hs2 with hsm
    subst hsm
    have hcl : cleanWindow f lat lon dataFlat ≠ [] := by
      intro hnil; exact h0 (by rw [hnil]; rfl)
    refine ⟨?_, ?_, ?_, Real.sqrt_nonneg _, ?_, ?_,
      winBounds_row_le_rows f lat lon, winBounds_col_le_cols f lat lon,
      winBounds_row_span_le f lat lon, winBounds_col_span_le f lat lon⟩
    · exact listMin_le_mean (cleanWindow f lat lon dataFlat) hcl
    · exact mean_le_listMax (cleanWindow f lat lon dataFlat) hcl
    · exact sq_dev_mean_nonneg (cleanWindow f lat lon dataFlat) _
    · exact listMin_mem (cleanWindow f lat lon dataFlat) hcl
    · exact listMax_mem (cleanWindow f lat lon dataFlat) hcl

/-- C7 witness: on the concrete raster `gW`, LST extraction at (1,1) reports
statistics obeying the claimed bounds. -/
theorem window_stats_bounds_witness :
    gW.datasets.lookup "LST" = some dataL ∧
    extract_pixel_value gW 1 1 "LST" = .ok rL ∧
    rL.window_statistics = some sL ∧
    (sL.min ≤ sL.mean ∧ sL.mean ≤ sL.max ∧ 0 ≤ sL.var ∧
     (0 : ℝ) ≤ Real.sqrt sL.var ∧
     sL.min ∈ cleanWindow gW 1 1 dataL ∧
     sL.max ∈ cleanWindow gW 1 1 dataL ∧
     (winBounds gW 1 1).2.1 ≤ gW.rows ∧
     (winBounds gW 1 1).2.2.2 ≤ gW.cols ∧
     (winBounds gW 1 1).2.1 - (winBounds gW 1 1).1 ≤ 5 ∧
     (winBounds gW 1 1).2.2.2 - (winBounds gW 1 1).2.2.1 ≤ 5) :=
  ⟨by decide, by with_unfolding_all decide, by with_unfolding_all decide,
   window_stats_bounds gW 1 1 "LST" rL sL dataL (by decide)
     (by with_unfolding_all decide) (by with_unfolding_all decide)⟩

/-- C10 (confirmed): the clipped window bounds always keep the matched pixel
inside the slice, so when the matched pixel's own value is not not-a-number
the filtered window is nonempty and window statistics are reported. -/
theorem window_contains_matched_pixel (f : RasterFile) (lat lon : ℚ)
    (ds : String) (dataFlat : List (Option ℚ)) (v : ℚ)
    (hlat : f.latFlat.length = f.rows * f.cols)
    (hlon : f.lonFlat.length = f.rows * f.cols)
    (hld : f.datasets.lookup ds = some dataFlat)
    (hz : (distList f lat lon).length ≠ 0)
    (hv : dataFlat.getD (pixRow f lat lon * f.cols + pixCol f lat lon) none =
      some v) :
    (winBounds f lat lon).1 ≤ pixRow f lat lon ∧
    pixRow f lat lon < (winBounds f lat lon).2.1 ∧
    (winBounds f lat lon).2.2.1 ≤ pixCol f lat lon ∧
    pixCol f lat lon < (winBounds f lat lon).2.2.2 ∧
    some v ∈ windowCells f lat lon dataFlat ∧
    statsReported f lat lon ds = true := by
  have hrow := pixRow_lt_rows f lat lon hlat hlon hz
  have hcol := pixCol_lt_cols f lat lon hlat hlon hz
  have hcl : cleanWindow f lat lon dataFlat ≠ [] :=
    cleanWindow_ne_nil f lat lon dataFlat v hrow hcol hv
  refine ⟨?_, ?_, ?_, ?_, ?_, ?_⟩
  · simp only [winBounds]; omega
  · simp only [winBounds]; omega
  · simp only [winBounds]; omega
  · simp only [winBounds]; omega
  · rw [← hv]; exact self_mem_windowCells f lat lon dataFlat hrow hcol
  · have h0 : ¬((cleanWindow f lat lon dataFlat).length = 0) := by
      intro h
      exact hcl (List.length_eq_zero.mp h)
    simp only [statsReported, extract_pixel_value, hld]
    rw [if_neg hz]
    simp only [Option.isSome]
    rw [if_neg h0]

/-- C10 witness: on the concrete raster `gW`, LST extraction at (1,1) has its
matched pixel (value 304) inside the clipped window and reports statistics. -/
theorem window_contains_matched_pixel_witness :
    gW.latFlat.length = gW.rows * gW.cols ∧
    gW.lonFlat.length = gW.rows * gW.cols ∧
    gW.datasets.lookup "LST" = some dataL ∧
    (distList gW 1 1).length ≠ 0 ∧
    dataL.getD (pixRow gW 1 1 * gW.cols + pixCol gW 1 1) none = some 304 ∧
    ((winBounds gW 1 1).1 ≤ pixRow gW 1 1 ∧
     pixRow gW 1 1 < (winBounds gW 1 1).2.1 ∧
     (winBounds gW 1 1).2.2.1 ≤ pixCol gW 1 1 ∧
     pixCol gW 1 1 < (winBounds gW 1 1).2.2.2 ∧
     some (304 : ℚ) ∈ windowCells gW 1 1 dataL ∧
     statsReported gW 1 1 "LST" = true) :=
  ⟨by decide, by decide, by decide, by with_unfolding_all decide,
   by with_unfolding_all decide,
   window_contains_matched_pixel gW 1 1 "LST" dataL 304 (by decide)
     (by decide) (by decide) (by with_unfolding_all decide)
     (by with_unfolding_all decide)⟩

/-- C3 counterexample: on the all-not-a-number raster `gNaN` the extraction
succeeds, the filtered 5x5 window is empty, and the result still carries the
window_statistics key — with a null value — so the key is not absent as the
claim states. -/
theorem window_statistics_null_counterexample :
    extract_pixel_value gNaN 0 0 "NDVI" = .ok rNaN ∧
    cleanWindow gNaN 0 0 [none] = [] ∧
    rNaN.window_statistics = none ∧
    "window_statistics" ∈ resultKeys rNaN := by
  refine ⟨by with_unfolding_all decide, by with_unfolding_all decide,
    by with_unfolding_all decide, by with_unfolding_all decide⟩

/-- C3 (corrected): on every successful extraction the window_statistics key
is present in the result dictionary; when the filtered window is empty its
value is null (None), never a zero or other placeholder number. -/
theorem window_statistics_key_present (f : RasterFile) (lat lon : ℚ)
    (ds : String) (r : ExtractResult) (dataFlat : List (Option ℚ))
    (hld : f.datasets.lookup ds = some dataFlat)
    (hex : extract_pixel_value f lat lon ds = .ok r) :
    "window_statistics" ∈ resultKeys r ∧
    ((cleanWindow f lat lon dataFlat).length = 0 →
      r.window_statistics = none) := by
  obtain ⟨dataFlat2, hld2, hz, hr⟩ := extract_ok_inv f lat lon ds r hex
  rw [hld] at hld2
  injection hld2 with hdf
  subst hdf
  constructor
  · simp [resultKeys]
  · intro h0
    have hs2 : r.window_statistics =
        (if (cleanWindow f lat lon dataFlat).length = 0 then none
         else some (mkStats (cleanWindow f lat lon dataFlat) ds)) := by
      rw [hr]
    rw [hs2, if_pos h0]

/-- C3 witness: the corrected behaviour at the concrete all-not-a-number
raster `gNaN`. -/
theorem window_statistics_key_present_witness :
    gNaN.datasets.lookup "NDVI" = some [none] ∧
    extract_pixel_value gNaN 0 0 "NDVI" = .ok rNaN ∧
    ("window_statistics" ∈ resultKeys rNaN ∧
     ((cleanWindow gNaN 0 0 [none]).length = 0 →
       rNaN.window_statistics = none)) :=
  ⟨by decide, by with_unfolding_all decide,
   window_statistics_key_present gNaN 0 0 "NDVI" rNaN [none] (by decide)
     (by with_unfolding_all decide)⟩

/-- C1 counterexample: with mock not requested and the client library
unavailable, mock data is silently substituted (the mock branch is taken and
yields a file), yet the assembled record's data_source is "gportal" — neither
the claimed "mock" nor the claimed "remote". -/
theorem data_source_tag_counterexample :
    mockInvoked envSub = true ∧
    create_mock_hdf5 envSub "LST" = some gW ∧
    (collect_satellite_data envSub 0 0 "2026-01-08").data_source = "gportal" ∧
    (collect_satellite_data envSub 0 0 "2026-01-08").data_source ≠ "mock" ∧
    (collect_satellite_data envSub 0 0 "2026-01-08").data_source ≠ "remote" := by
  refine ⟨rfl, rfl, rfl, by decide, by decide⟩

/-- C1 (corrected): the record's data_source is "mock" exactly when mock mode
was explicitly requested, and "gportal" (not "remote") otherwise — silent
mock substitution does not change the tag. -/
theorem data_source_tag (env : CollectEnv) (lat lon : ℚ)
    (targetDate : String) :
    (collect_satellite_data env lat lon targetDate).data_source =
      (if env.useMock then "mock" else "gportal") ∧
    ((collect_satellite_data env lat lon targetDate).data_source = "mock" ↔
      env.useMock = true) ∧
    (collect_satellite_data env lat lon targetDate).data_source ≠ "remote" := by
  cases henv : env.useMock <;>
    simp [collect_satellite_data, henv]

/-- C1 witness: the corrected tagging at the concrete silent-substitution
environment. -/
theorem data_source_tag_witness :
    (collect_satellite_data envSub 0 0 "2026-01-08").data_source =
      (if envSub.useMock then "mock" else "gportal") ∧
    ((collect_satellite_data envSub 0 0 "2026-01-08").data_source = "mock" ↔
      envSub.useMock = true) ∧
    (collect_satellite_data envSub 0 0 "2026-01-08").data_source ≠ "remote" :=
  data_source_tag envSub 0 0 "2026-01-08"

/-- C2 counterexample: with the client library importable but credentials
missing, the mock generator is NOT invoked (even though it would have
produced a file) and the per-product observation is the no-file error — not
an observation produced from a generated file. -/
theorem mock_fallback_counterexample :
    envCreds.gportalAvailable = true ∧
    mockInvoked envCreds = false ∧
    create_mock_hdf5 envCreds "LST" = some gW ∧
    collectProduct envCreds 0 0 "LST" = .err "ファイル取得失敗" := by
  refine ⟨rfl, rfl, rfl, by decide⟩

/-- C2 (corrected): the mock generator is invoked automatically only when the
client library is unimportable (or mock explicitly requested).  When the
library is importable but credentials are missing (with mock not requested),
no mock substitution happens and the per-product observation is the no-file
error payload. -/
theorem missing_credentials_yields_error (env : CollectEnv) (lat lon : ℚ)
    (productType : String)
    (hg : env.gportalAvailable = true) (hm : env.useMock = false)
    (hc : get_gportal_credentials env.username env.password = none) :
    mockInvoked env = false ∧
    collectProduct env lat lon productType = .err "ファイル取得失敗" := by
  constructor
  · simp [mockInvoked, hm, hg]
  · simp [collectProduct, mockInvoked, hm, hg, search_and_download_real, hc]

/-- C2 witness: the corrected behaviour at the concrete missing-credentials
environment. -/
theorem missing_credentials_yields_error_witness :
    envCreds.gportalAvailable = true ∧
    envCreds.useMock = false ∧
    get_gportal_credentials envCreds.username envCreds.password = none ∧
    (mockInvoked envCreds = false ∧
     collectProduct envCreds 0 0 "NDVI" = .err "ファイル取得失敗") :=
  ⟨rfl, rfl, by decide,
   missing_credentials_yields_error envCreds 0 0 "NDVI" rfl rfl (by decide)⟩

/-! ## Helper lemmas: the upsert -/

theorem keyMatch_update (locId : ℕ) (date : Option String) (o : Observation)
    (s : ObsRow) :
    keyMatch locId date { s with lst := o.lst, ndvi := o.ndvi } =
      keyMatch locId date s := rfl

theorem insert_observation_countP (store : List ObsRow) (locId : ℕ)
    (o : Observation)
    (hle : store.countP (keyMatch locId o.observation_date) ≤ 1) :
    (insert_observation store locId o).countP
      (keyMatch locId o.observation_date) = 1 := by
  rw [insert_observation]
  by_cases hany : store.any (keyMatch locId o.observation_date)
  · rw [if_pos hany]
    have hpos : 0 < store.countP (keyMatch locId o.observation_date) :=
      List.countP_pos_iff.mpr (List.any_eq_true.mp hany)
    have heq : (store.map fun s =>
        if keyMatch locId o.observation_date s then
          { s with lst := o.lst, ndvi := o.ndvi } else s).countP
          (keyMatch locId o.observation_date) =
        store.countP (keyMatch locId o.observation_date) := by
      rw [List.countP_map]
      apply List.countP_congr
      intro s _
      by_cases hk : keyMatch locId o.observation_date s = true
      · simp [Function.comp, hk, keyMatch_update]
      · simp [Function.comp, hk]
    omega
  · rw [if_neg hany]
    rw [List.countP_append]
    have h0 : store.countP (keyMatch locId o.observation_date) = 0 := by
      apply List.countP_eq_zero.mpr
      intro a ha hka
      exact hany (List.any_eq_true.mpr ⟨a, ha, hka⟩)
    rw [h0]
    simp [keyMatch]

theorem insert_observation_values (store : List ObsRow) (locId : ℕ)
    (o : Observation) (row : ObsRow)
    (hrow : row ∈ insert_observation store locId o)
    (hkey : keyMatch locId o.observation_date row = true) :
    row.lst = o.lst ∧ row.ndvi = o.ndvi := by
  rw [insert_observation] at hrow
  by_cases hany : store.any (keyMatch locId o.observation_date)
  · rw [if_pos hany] at hrow
    rcases List.mem_map.mp hrow with ⟨s, hs, hfs⟩
    by_cases hk : keyMatch locId o.observation_date s = true
    · rw [if_pos hk] at hfs
      rw [← hfs]
      exact ⟨rfl, rfl⟩
    · rw [if_neg hk] at hfs
      rw [← hfs] at hkey
      exact absurd hkey hk
  · rw [if_neg hany] at hrow
    rcases List.mem_append.mp hrow with h | h
    · exact absurd (List.any_eq_true.mpr ⟨row, h, hkey⟩) hany
    · have hr : row = { location_id := locId
                        observation_date := o.observation_date
                        lst := o.lst, ndvi := o.ndvi } :=
        List.mem_singleton.mp h
      rw [hr]
      exact ⟨rfl, rfl⟩

/-- C4 (confirmed): starting from any store satisfying the UNIQUE key
constraint, two upserts with the same (location_id, observation_date) key and
different values leave exactly one row for that key, and any row matching the
key carries the second call's lst and ndvi. -/
theorem upsert_second_call_wins (store : List ObsRow) (locId : ℕ)
    (o1 o2 : Observation) (row : ObsRow)
    (hwf : wfStore store)
    (hdate : o1.observation_date = o2.observation_date)
    (_hne : o1.lst ≠ o2.lst ∨ o1.ndvi ≠ o2.ndvi)
    (hrow : row ∈
      insert_observation (insert_observation store locId o1) locId o2)
    (hkey : keyMatch locId o2.observation_date row = true) :
    (insert_observation (insert_observation store locId o1) locId o2).countP
      (keyMatch locId o2.observation_date) = 1 ∧
    row.lst = o2.lst ∧ row.ndvi = o2.ndvi := by
  have h1 : (insert_observation store locId o1).countP
      (keyMatch locId o1.observation_date) = 1 :=
    insert_observation_countP store locId o1 (hwf locId o1.observation_date)
  rw [hdate] at h1
  exact ⟨insert_observation_countP _ locId o2 (le_of_eq h1),
    insert_observation_values _ locId o2 row hrow hkey⟩

/-- C4 witness: from the empty store, upserting key (1, "2026-01-08") with
values (1, 2) then (3, 4) leaves one row holding (3, 4). -/
theorem upsert_second_call_wins_witness :
    wfStore [] ∧
    (some "2026-01-08" : Option String) = some "2026-01-08" ∧
    ((some (1 : ℚ) : Option ℚ) ≠ some 3 ∨ (some (2 : ℚ) : Option ℚ) ≠ some 4) ∧
    ({ location_id := 1, observation_date := some "2026-01-08"
       lst := some 3, ndvi := some 4 } : ObsRow) ∈
      insert_observation
        (insert_observation []
          1 { observation_date := some "2026-01-08"
              lst := some 1, ndvi := some 2 })
        1 { observation_date := some "2026-01-08"
            lst := some 3, ndvi := some 4 } ∧
    keyMatch 1 (some "2026-01-08")
      { location_id := 1, observation_date := some "2026-01-08"
        lst := some 3, ndvi := some 4 } = true ∧
    ((insert_observation
        (insert_observation []
          1 { observation_date := some "2026-01-08"
              lst := some 1, ndvi := some 2 })
        1 { observation_date := some "2026-01-08"
            lst := some 3, ndvi := some 4 }).countP
      (keyMatch 1 (some "2026-01-08")) = 1 ∧
     ({ location_id := 1, observation_date := some "2026-01-08"
        lst := some 3, ndvi := some 4 } : ObsRow).lst = some 3 ∧
     ({ location_id := 1, observation_date := some "2026-01-08"
        lst := some 3, ndvi := some 4 } : ObsRow).ndvi = some 4) :=
  ⟨fun _ _ => by simp, rfl, by decide, by decide, by decide,
   upsert_second_call_wins []
     1 { observation_date := some "2026-01-08", lst := some 1, ndvi := some 2 }
     { observation_date := some "2026-01-08", lst := some 3, ndvi := some 4 }
     { location_id := 1, observation_date := some "2026-01-08"
       lst := some 3, ndvi := some 4 }
     (fun _ _ => by simp) rfl (by decide) (by decide) (by decide)⟩

theorem location_error_ne_empty (locId : ℕ) :
    ("観測地点ID=" ++ toString locId ++ " が存在しません" : String) ≠ "" := by
  intro h
  have hlen := congrArg String.length h
  rw [String.length_append, String.length_append] at hlen
  have h7 : ("観測地点ID=" : String).length = 7 := by decide
  have h0 : ("" : String).length = 0 := by decide
  rw [h7, h0] at hlen
  omega

/-- C5 (confirmed): a non-backup-only run against an unknown location id
writes nothing to the observations table, produces a fresh backup CSV holding
the header and exactly one data row whose error column is non-empty, and
exits with non-zero status. -/
theorem unknown_location_backs_up (env : UploadEnv) (locId : ℕ)
    (doc : JsonDoc)
    (hdoc : env.inputDoc = some doc)
    (hbo : env.backupOnly = false)
    (hpy : env.pymysqlAvailable = true)
    (hco : env.connectOk = true)
    (hloc : env.locations.contains locId = false)
    (hfresh : env.backupExisting = none) :
    (uploadMain env locId).store = env.store ∧
    (uploadMain env locId).backup = some
      { header := true
        rows := [{ location_id := locId
                   observation_date :=
                     (extract_observation_data doc).observation_date
                   lst := (extract_observation_data doc).lst
                   ndvi := (extract_observation_data doc).ndvi
                   error :=
                     "観測地点ID=" ++ toString locId ++ " が存在しません" }] } ∧
    ("観測地点ID=" ++ toString locId ++ " が存在しません" : String) ≠ "" ∧
    (uploadMain env locId).exitCode = 1 := by
  have hloc2 : locId ∉ env.locations := by simpa using hloc
  refine ⟨?_, ?_, location_error_ne_empty locId, ?_⟩ <;>
    simp [uploadMain, hdoc, hbo, hpy, hco, hloc2, hfresh, save_to_csv_backup]

/-- C5 witness: the concrete environment `envUp` knows only location 1;
ingesting against location 2 leaves the store empty, writes one backup row
with non-empty error, and exits 1. -/
theorem unknown_location_backs_up_witness :
    envUp.inputDoc = some docW ∧
    envUp.backupOnly = false ∧
    envUp.pymysqlAvailable = true ∧
    envUp.connectOk = true ∧
    envUp.locations.contains 2 = false ∧
    envUp.backupExisting = none ∧
    ((uploadMain envUp 2).store = envUp.store ∧
     (uploadMain envUp 2).backup = some
       { header := true
         rows := [{ location_id := 2
                    observation_date :=
                      (extract_observation_data docW).observation_date
                    lst := (extract_observation_data docW).lst
                    ndvi := (extract_observation_data docW).ndvi
                    error :=
                      "観測地点ID=" ++ toString 2 ++ " が存在しません" }] } ∧
     ("観測地点ID=" ++ toString 2 ++ " が存在しません" : String) ≠ "" ∧
     (uploadMain envUp 2).exitCode = 1) :=
  ⟨rfl, rfl, rfl, rfl, by decide, rfl,
   unknown_location_backs_up envUp 2 docW rfl rfl rfl rfl (by decide) rfl⟩

/-- C9 (confirmed): a backup-only run never attempts a store connection,
leaves the store untouched, creates the fresh CSV backup with a header and
exactly one data row (empty error column), and terminates successfully. -/
theorem backup_only_skips_store (env : UploadEnv) (locId : ℕ) (doc : JsonDoc)
    (hdoc : env.inputDoc = some doc)
    (hbo : env.backupOnly = true)
    (hfresh : env.backupExisting = none) :
    (uploadMain env locId).connectionAttempted = false ∧
    (uploadMain env locId).store = env.store ∧
    (uploadMain env locId).backup = some
      { header := true
        rows := [{ location_id := locId
                   observation_date :=
                     (extract_observation_data doc).observation_date
                   lst := (extract_observation_data doc).lst
                   ndvi := (extract_observation_data doc).ndvi
                   error := "" }] } ∧
    (uploadMain env locId).exitCode = 0 := by
  refine ⟨?_, ?_, ?_, ?_⟩ <;>
    simp [uploadMain, hdoc, hbo, hfresh, save_to_csv_backup]

/-- C9 witness: the backup-only variant of `envUp` at location 1. -/
theorem backup_only_skips_store_witness :
    ({ envUp with backupOnly := true } : UploadEnv).inputDoc = some docW ∧
    ({ envUp with backupOnly := true } : UploadEnv).backupOnly = true ∧
    ({ envUp with backupOnly := true } : UploadEnv).backupExisting = none ∧
    ((uploadMain { envUp with backupOnly := true } 1).connectionAttempted =
       false ∧
     (uploadMain { envUp with backupOnly := true } 1).store =
       ({ envUp with backupOnly := true } : UploadEnv).store ∧
     (uploadMain { envUp with backupOnly := true } 1).backup = some
       { header := true
         rows := [{ location_id := 1
                    observation_date :=
                      (extract_observation_data docW).observation_date
                    lst := (extract_observation_data docW).lst
                    ndvi := (extract_observation_data docW).ndvi
                    error := "" }] } ∧
     (uploadMain { envUp with backupOnly := true } 1).exitCode = 0) :=
  ⟨rfl, rfl, rfl,
   backup_only_skips_store { envUp with backupOnly := true } 1 docW
     rfl rfl rfl⟩

/-- C8 (confirmed): the Ingestor's extraction step keeps the observation
date, rounds a successful lst's pixel_value_celsius to 2 decimals and a
successful ndvi's pixel_value to 3 decimals, and maps a per-product {error}
payload to a null field (extract_observation_data is total: it never turns an
error payload into an ingestion failure). -/
theorem ingest_extraction_fields (doc : JsonDoc) (m : ObsMap)
    (pl pn : ProductPayload) (c v : ℚ)
    (hm : doc.observations = some m)
    (hl : m.lst = some pl) (hn : m.ndvi = some pn) :
    (extract_observation_data doc).observation_date = doc.observation_date ∧
    (pl.error.isSome = true → (extract_observation_data doc).lst = none) ∧
    (pl.error = none → pl.pixel_value_celsius = some c →
      (extract_observation_data doc).lst = some (roundTo c 2)) ∧
    (pn.error.isSome = true → (extract_observation_data doc).ndvi = none) ∧
    (pn.error = none → pn.pixel_value = some v →
      (extract_observation_data doc).ndvi = some (roundTo v 3)) := by
  refine ⟨rfl, ?_, ?_, ?_, ?_⟩
  · intro herr
    rcases Option.isSome_iff_exists.mp herr with ⟨e, he⟩
    simp [extract_observation_data, hm, hl, he]
  · intro herr hc
    simp [extract_observation_data, hm, hl, herr, hc]
  · intro herr
    rcases Option.isSome_iff_exists.mp herr with ⟨e, he⟩
    simp [extract_observation_data, hm, hn, he]
  · intro herr hv
    simp [extract_observation_data, hm, hn, herr, hv]

/-- C8 witness: on the concrete document `docW` (errored lst, successful
ndvi with pixel_value 0.7654), the extracted record has a null lst and ndvi
rounded to 3 decimals; ingesting it through the full pipeline still succeeds
(exit code 0). -/
theorem ingest_extraction_fields_witness :
    docW.observations = some mW ∧
    mW.lst = some plW ∧
    mW.ndvi = some pnW ∧
    ((extract_observation_data docW).observation_date =
       docW.observation_date ∧
     (plW.error.isSome = true → (extract_observation_data docW).lst = none) ∧
     (plW.error = none → plW.pixel_value_celsius = some 0 →
       (extract_observation_data docW).lst = some (roundTo 0 2)) ∧
     (pnW.error.isSome = true →
       (extract_observation_data docW).ndvi = none) ∧
     (pnW.error = none → pnW.pixel_value = some (7654 / 10000) →
       (extract_observation_data docW).ndvi =
         some (roundTo (7654 / 10000) 3))) ∧
    (uploadMain envUp 1).exitCode = 0 :=
  ⟨rfl, rfl, rfl,
   ingest_extraction_fields docW mW plW pnW 0 (7654 / 10000) rfl rfl rfl,
   by with_unfolding_all decide⟩

end SatViewer
